import Mathlib

/-
  Verification of the wampproto-cli command dispatcher (cmd/wampproto/main.go)
  against its design specification.

  The embedding models:
  - the typed-value conversion helpers of the wampprotocli root package
    (StringsToTypedList, StringMapToTypedMap, UpdateArgsKwArgsIfEmpty,
    DecodeHexOrBase64, FormatOutput, FormatOutputBytes) — these live in the
    repository's root package, whose source is not under src/, so they are
    modelled from the specification's description (sections 4.1 and 4.2);
  - the message constructors of wampproto-go (opaque record builders);
  - the external crypto and serializer collaborators as an explicit Oracle of
    deterministic functions plus an Entropy record holding the values the
    per-invocation random draws produce;
  - the Run dispatcher of src/cmd/wampproto/main.go, translated branch by
    branch, and the main entry point's print/exit behaviour.
-/

/-! ## Typed values (spec 4.1, wampprotocli conversion helpers) -/

/-- Modelled from the spec: the tagged-union Typed Value of section 3 with
variants integer, floating-point, boolean, null and string.  The
floating-point variant keeps the source token (the numeric value is wire-level
detail no claim depends on). -/
inductive TypedValue where
  | int (i : Int)
  | float (tok : String)
  | bool (b : Bool)
  | null
  | str (s : String)
deriving DecidableEq

/-- Accumulate a nonempty all-digit character list as a natural number. -/
def digitsToNat (cs : List Char) : Option Nat :=
  if cs.isEmpty then none
  else cs.foldl
    (fun acc c =>
      match acc with
      | none => none
      | some n => if c.isDigit then some (n * 10 + (c.toNat - 48)) else none)
    (some 0)

/-- Modelled from the spec: precedence step 1 of section 4.1 — a base-10
signed integer literal with no fractional part. -/
def parseIntegerLiteral (s : String) : Option Int :=
  match s.data with
  | [] => none
  | '-' :: rest => (digitsToNat rest).map (fun n => -(n : Int))
  | '+' :: rest => (digitsToNat rest).map (fun n => (n : Int))
  | cs => (digitsToNat cs).map (fun n => (n : Int))

/-- Nonempty and all decimal digits. -/
def isDigits (cs : List Char) : Bool :=
  !cs.isEmpty && cs.all Char.isDigit

/-- Drop one leading sign character if present. -/
def stripSign : List Char → List Char
  | '+' :: rest => rest
  | '-' :: rest => rest
  | cs => cs

/-- Leading digits, a dot, then more digits: a numeral with a fractional
component. -/
def hasFractionForm (cs : List Char) : Bool :=
  match cs.span Char.isDigit with
  | (intPart, '.' :: fracPart) => !intPart.isEmpty && isDigits fracPart
  | _ => false

/-- Split a character list at the first exponent marker. -/
def splitAtExpAux (acc : List Char) : List Char → List Char × Option (List Char)
  | [] => (acc.reverse, none)
  | c :: rest =>
    if c = 'e' ∨ c = 'E' then (acc.reverse, some rest)
    else splitAtExpAux (c :: acc) rest

/-- Modelled from the spec: precedence step 2 of section 4.1 — a decimal
numeral with a fractional component or an exponent. -/
def isFloatLiteral (s : String) : Bool :=
  let cs := stripSign s.data
  match splitAtExpAux [] cs with
  | (mant, none) => hasFractionForm mant
  | (mant, some expPart) =>
    (hasFractionForm mant || isDigits mant) && isDigits (stripSign expPart)

/-- Modelled from the spec: the convert function of section 4.1, with the
fixed precedence integer, float, boolean, null, string fallback; total, never
an error. -/
def convert (token : String) : TypedValue :=
  match parseIntegerLiteral token with
  | some i => TypedValue.int i
  | none =>
    if isFloatLiteral token then TypedValue.float token
    else if token = "true" then TypedValue.bool true
    else if token = "false" then TypedValue.bool false
    else if token = "null" then TypedValue.null
    else TypedValue.str token

/-- Modelled from the spec: StringsToTypedList of the wampprotocli root
package (source not under src/): convertList of section 4.1, elementwise
conversion preserving order; empty input yields an empty (not absent)
sequence. -/
def StringsToTypedList (tokens : List String) : List TypedValue :=
  tokens.map convert

/-- Modelled from the spec: StringMapToTypedMap of the wampprotocli root
package (source not under src/): convertMap of section 4.1, converting each
value and preserving keys. -/
def StringMapToTypedMap (pairs : List (String × String)) : List (String × TypedValue) :=
  pairs.map (fun p => (p.1, convert p.2))

/-- Modelled from the spec: UpdateArgsKwArgsIfEmpty of the wampprotocli root
package (source not under src/): the empty-defaulting rule of section 4.1 —
when both the argument list and the argument map are empty, both are
normalized to the absent representation (none); when either is non-empty,
both are passed through as-is (some). -/
def UpdateArgsKwArgsIfEmpty (args : List TypedValue) (kwargs : List (String × TypedValue)) :
    Option (List TypedValue) × Option (List (String × TypedValue)) :=
  if args.isEmpty ∧ kwargs.isEmpty then (none, none)
  else (some args, some kwargs)

/-! ## Hex and base64 codecs (spec 4.2, wampprotocli codec helpers) -/

/-- Lowercase hex digit for a value below 16. -/
def natToHexDigit (n : Nat) : Char :=
  if n < 10 then Char.ofNat (48 + n) else Char.ofNat (87 + n)

/-- Value of a hex digit character, upper or lower case. -/
def hexDigitToNat (c : Char) : Option Nat :=
  if 48 ≤ c.toNat ∧ c.toNat ≤ 57 then some (c.toNat - 48)
  else if 97 ≤ c.toNat ∧ c.toNat ≤ 102 then some (c.toNat - 87)
  else if 65 ≤ c.toNat ∧ c.toNat ≤ 70 then some (c.toNat - 55)
  else none

/-- Two lowercase hex digits per byte, no separators (spec 4.2). -/
def hexEncodeChars : List Nat → List Char
  | [] => []
  | b :: rest => natToHexDigit (b / 16) :: natToHexDigit (b % 16) :: hexEncodeChars rest

/-- Modelled from the spec: hex encoding of section 4.2 — lowercase, no
separators. -/
def hexEncode (bs : List Nat) : String :=
  String.mk (hexEncodeChars bs)

/-- Strict hex decoding: even length, every character a hex digit. -/
def hexDecodeChars : List Char → Option (List Nat)
  | [] => some []
  | [_] => none
  | c1 :: c2 :: rest =>
    match hexDigitToNat c1, hexDigitToNat c2, hexDecodeChars rest with
    | some hi, some lo, some bs => some ((hi * 16 + lo) :: bs)
    | _, _, _ => none

/-- Modelled from the spec: hex decoding of section 4.2. -/
def hexDecode (s : String) : Option (List Nat) :=
  hexDecodeChars s.data

/-- The standard base64 alphabet (spec 4.2). -/
def base64Alphabet : List Char :=
  ("ABCDEFGHIJKLMNOPQRSTUVWXYZabcdefghijklmnopqrstuvwxyz0123456789+/").data

/-- Index of a character in the standard base64 alphabet. -/
def sextetOfAux (c : Char) : List Char → Nat → Option Nat
  | [], _ => none
  | d :: rest, i => if c = d then some i else sextetOfAux c rest (i + 1)

/-- Sextet value of a base64 alphabet character. -/
def sextetOf (c : Char) : Option Nat :=
  sextetOfAux c base64Alphabet 0

/-- Base64 encoding over 3-byte groups with '=' padding (spec 4.2: standard
alphabet with padding). -/
def base64EncodeChars : List Nat → List Char
  | [] => []
  | [b1] =>
    [base64Alphabet.getD (b1 / 4) '=', base64Alphabet.getD (b1 % 4 * 16) '=', '=', '=']
  | [b1, b2] =>
    [base64Alphabet.getD (b1 / 4) '=', base64Alphabet.getD (b1 % 4 * 16 + b2 / 16) '=',
     base64Alphabet.getD (b2 % 16 * 4) '=', '=']
  | b1 :: b2 :: b3 :: rest =>
    base64Alphabet.getD (b1 / 4) '=' ::
    base64Alphabet.getD (b1 % 4 * 16 + b2 / 16) '=' ::
    base64Alphabet.getD (b2 % 16 * 4 + b3 / 64) '=' ::
    base64Alphabet.getD (b3 % 64) '=' :: base64EncodeChars rest

/-- Modelled from the spec: base64 encoding of section 4.2. -/
def base64Encode (bs : List Nat) : String :=
  String.mk (base64EncodeChars bs)

/-- Base64 decoding: groups of four characters, padding allowed only at the
end. -/
def base64DecodeChars : List Char → Option (List Nat)
  | [] => some []
  | c1 :: c2 :: '=' :: '=' :: [] =>
    (match sextetOf c1, sextetOf c2 with
     | some s1, some s2 => some [s1 * 4 + s2 / 16]
     | _, _ => none)
  | c1 :: c2 :: c3 :: '=' :: [] =>
    (match sextetOf c1, sextetOf c2, sextetOf c3 with
     | some s1, some s2, some s3 => some [s1 * 4 + s2 / 16, s2 % 16 * 16 + s3 / 4]
     | _, _, _ => none)
  | c1 :: c2 :: c3 :: c4 :: rest =>
    (match sextetOf c1, sextetOf c2, sextetOf c3, sextetOf c4, base64DecodeChars rest with
     | some s1, some s2, some s3, some s4, some bs =>
       some ((s1 * 4 + s2 / 16) :: (s2 % 16 * 16 + s3 / 4) :: (s3 % 4 * 64 + s4) :: bs)
     | _, _, _, _, _ => none)
  | _ => none

/-- Modelled from the spec: base64 decoding of section 4.2. -/
def base64Decode (s : String) : Option (List Nat) :=
  base64DecodeChars s.data

/-- Modelled from the spec: DecodeHexOrBase64 of the wampprotocli root
package (source not under src/): section 4.2 — attempt hex first, fall back
to base64, fail with a decode error if neither succeeds. -/
def DecodeHexOrBase64 (s : String) : Except String (List Nat) :=
  match hexDecode s with
  | some bs => Except.ok bs
  | none =>
    match base64Decode s with
    | some bs => Except.ok bs
    | none => Except.error "must be in either hexadecimal or base64 format"

/-- Modelled from the spec: FormatOutputBytes of the wampprotocli root
package (source not under src/): encode a byte sequence per section 4.2 in
the caller-selected output format. -/
def FormatOutputBytes (format : String) (bs : List Nat) : Except String String :=
  if format = "hex" then Except.ok (hexEncode bs)
  else if format = "base64" then Except.ok (base64Encode bs)
  else Except.error "invalid output format"

/-- Modelled from the spec: FormatOutput of the wampprotocli root package
(source not under src/): the crypto collaborator hands back hex strings, so
the hex format passes the string through and the base64 format re-encodes the
decoded bytes (section 4.2). -/
def FormatOutput (format : String) (hexStr : String) : Except String String :=
  if format = "hex" then Except.ok hexStr
  else if format = "base64" then
    match hexDecode hexStr with
    | some bs => Except.ok (base64Encode bs)
    | none => Except.error "encoding must be in hexadecimal"
  else Except.error "invalid output format"

/-! ## Protocol messages (opaque constructors of wampproto-go) -/

/-- The message constructors consumed by Run, recorded symbolically: one
variant per constructor, fields in the Go call order.  Argument-list and
argument-map fields are Option-typed because the Go slice and map arguments
are nilable: none models the absent (nil) representation, some an explicitly
present (possibly empty) value. -/
inductive Message where
  | call (requestID : Int) (options : List (String × TypedValue)) (uri : String)
      (args : Option (List TypedValue)) (kwargs : Option (List (String × TypedValue)))
  | result (requestID : Int) (details : List (String × TypedValue))
      (args : Option (List TypedValue)) (kwargs : Option (List (String × TypedValue)))
  | register (requestID : Int) (options : List (String × TypedValue)) (procedure : String)
  | registered (requestID : Int) (registrationID : Int)
  | invocation (requestID : Int) (registrationID : Int) (details : List (String × TypedValue))
      (args : Option (List TypedValue)) (kwargs : Option (List (String × TypedValue)))
  | yield (requestID : Int) (options : List (String × TypedValue))
      (args : Option (List TypedValue)) (kwargs : Option (List (String × TypedValue)))
  | unregister (requestID : Int) (registrationID : Int)
  | unregistered (requestID : Int)
  | subscribe (requestID : Int) (options : List (String × TypedValue)) (topic : String)
  | subscribed (requestID : Int) (subscriptionID : Int)
  | publish (requestID : Int) (options : List (String × TypedValue)) (topic : String)
      (args : Option (List TypedValue)) (kwargs : Option (List (String × TypedValue)))
deriving DecidableEq

/-! ## External collaborators -/

/-- The deterministic external collaborators consumed by Run: the Ed25519
signing and verification primitives of wampproto-go/auth, the seed expansion
NewKeyFromSeed of crypto/ed25519, and the serializers selected by name.  They
are opaque to the spec (section 1), so Run is parameterized over them. -/
structure Oracle where
  signChallenge : String → List Nat → Except String String
  verifySignature : String → List Nat → Except String Bool
  newKeyFromSeed : List Nat → List Nat
  serialize : String → Message → Except String (List Nat)

/-- The values produced by the per-invocation random draws: what
GenerateCryptoSignChallenge and GenerateCryptoSignKeyPair of
wampproto-go/auth return on this invocation.  A fresh invocation draws fresh
entropy, so two invocations of Run with the same argument vector may see
different Entropy values. -/
structure Entropy where
  challengeResult : Except String String
  keyPairResult : Except String (String × String)

/-- The outcome of one Run invocation: the Go pair (output string, error),
or a runtime panic escaping Run (crypto/ed25519 NewKeyFromSeed panics on a
seed whose length is not 32). -/
inductive RunResult where
  | ret (output : String) (err : Option String)
  | panic (msg : String)
deriving DecidableEq

/-! ## The parsed command record (struct cmd of main.go) -/

/-- The cmd struct of main.go after parsing: the parsed command name, the
output and serializer flags, and every registered argument and flag value.
Go int64 fields are modelled as Int (no arithmetic is performed on them),
string maps as association lists in input order. -/
structure Cmd where
  parsedCommand : String
  output : String
  serializer : String
  challenge : String
  privateKey : String
  signature : String
  publicKey : String
  privateKeyFlag : String
  callRequestID : Int
  callURI : String
  callArgs : List String
  callKwargs : List (String × String)
  callOption : List (String × String)
  resultRequestID : Int
  resultDetails : List (String × String)
  resultArgs : List String
  resultKwargs : List (String × String)
  regRequestID : Int
  regProcedure : String
  regOptions : List (String × String)
  registeredRequestID : Int
  registrationID : Int
  invRequestID : Int
  invRegistrationID : Int
  invDetails : List (String × String)
  invArgs : List String
  invKwArgs : List (String × String)
  yieldRequestID : Int
  yieldOptions : List (String × String)
  yieldArgs : List String
  yieldKwArgs : List (String × String)
  unRegRequestID : Int
  unRegRegistrationID : Int
  UnRegisteredRequestID : Int
  subscribeRequestID : Int
  subscribeTopic : String
  subscribeOptions : List (String × String)
  subscribedRequestID : Int
  subscriptionID : Int
  publishRequestID : Int
  publishTopic : String
  publishOptions : List (String × String)
  publishArgs : List String
  publishKwArgs : List (String × String)

/-- The cmd record before any argument is parsed: kingpin leaves Int64 arg
values at 0, strings empty, repeated values empty, and applies the declared
flag defaults (output hex, serializer json). -/
def defaultCmd : Cmd where
  parsedCommand := ""
  output := "hex"
  serializer := "json"
  challenge := ""
  privateKey := ""
  signature := ""
  publicKey := ""
  privateKeyFlag := ""
  callRequestID := 0
  callURI := ""
  callArgs := []
  callKwargs := []
  callOption := []
  resultRequestID := 0
  resultDetails := []
  resultArgs := []
  resultKwargs := []
  regRequestID := 0
  regProcedure := ""
  regOptions := []
  registeredRequestID := 0
  registrationID := 0
  invRequestID := 0
  invRegistrationID := 0
  invDetails := []
  invArgs := []
  invKwArgs := []
  yieldRequestID := 0
  yieldOptions := []
  yieldArgs := []
  yieldKwArgs := []
  unRegRequestID := 0
  unRegRegistrationID := 0
  UnRegisteredRequestID := 0
  subscribeRequestID := 0
  subscribeTopic := ""
  subscribeOptions := []
  subscribedRequestID := 0
  subscriptionID := 0
  publishRequestID := 0
  publishTopic := ""
  publishOptions := []
  publishArgs := []
  publishKwArgs := []

/-! Parse models: the cmd record kingpin produces for one concrete
invocation of each command.  Parsing fills only the executed command's own
arguments and the provided flags; every other command's registered argument
values keep their defaults. -/

/-- Parse result of: wampproto auth cryptosign generate-challenge. -/
def parsedGenerateChallenge (outF : String) : Cmd :=
  { defaultCmd with parsedCommand := "auth cryptosign generate-challenge", output := outF }

/-- Parse result of: wampproto auth cryptosign sign-challenge ch key. -/
def parsedSignChallenge (ch key outF : String) : Cmd :=
  { defaultCmd with
      parsedCommand := "auth cryptosign sign-challenge"
      challenge := ch
      privateKey := key
      output := outF }

/-- Parse result of: wampproto auth cryptosign verify-signature sig pk. -/
def parsedVerifySignature (sig pk outF : String) : Cmd :=
  { defaultCmd with
      parsedCommand := "auth cryptosign verify-signature"
      signature := sig
      publicKey := pk
      output := outF }

/-- Parse result of: wampproto auth cryptosign keygen. -/
def parsedKeygen (outF : String) : Cmd :=
  { defaultCmd with parsedCommand := "auth cryptosign keygen", output := outF }

/-- Parse result of: wampproto auth cryptosign get-pubkey key. -/
def parsedGetPubkey (key outF : String) : Cmd :=
  { defaultCmd with
      parsedCommand := "auth cryptosign get-pubkey"
      privateKeyFlag := key
      output := outF }

/-- Parse result of: wampproto message call reqID uri args... -k kwargs
-o options. -/
def parsedCall (reqID : Int) (uri : String) (args : List String)
    (kwargs opts : List (String × String)) (ser outF : String) : Cmd :=
  { defaultCmd with
      parsedCommand := "message call"
      callRequestID := reqID
      callURI := uri
      callArgs := args
      callKwargs := kwargs
      callOption := opts
      serializer := ser
      output := outF }

/-- Parse result of: wampproto message result reqID args... -d details
-k kwargs. -/
def parsedResult (reqID : Int) (args : List String)
    (details kwargs : List (String × String)) (ser outF : String) : Cmd :=
  { defaultCmd with
      parsedCommand := "message result"
      resultRequestID := reqID
      resultArgs := args
      resultDetails := details
      resultKwargs := kwargs
      serializer := ser
      output := outF }

/-- Parse result of: wampproto message invocation reqID regID args...
-d details -k kwargs. -/
def parsedInvocation (reqID regID : Int) (args : List String)
    (details kwargs : List (String × String)) (ser outF : String) : Cmd :=
  { defaultCmd with
      parsedCommand := "message invocation"
      invRequestID := reqID
      invRegistrationID := regID
      invArgs := args
      invDetails := details
      invKwArgs := kwargs
      serializer := ser
      output := outF }

/-- Parse result of: wampproto message yield reqID args... -o options
-k kwargs. -/
def parsedYield (reqID : Int) (args : List String)
    (opts kwargs : List (String × String)) (ser outF : String) : Cmd :=
  { defaultCmd with
      parsedCommand := "message yield"
      yieldRequestID := reqID
      yieldArgs := args
      yieldOptions := opts
      yieldKwArgs := kwargs
      serializer := ser
      output := outF }

/-- Parse result of: wampproto message publish reqID topic args... -o options
-k kwargs. -/
def parsedPublish (reqID : Int) (topic : String) (args : List String)
    (opts kwargs : List (String × String)) (ser outF : String) : Cmd :=
  { defaultCmd with
      parsedCommand := "message publish"
      publishRequestID := reqID
      publishTopic := topic
      publishArgs := args
      publishOptions := opts
      publishKwArgs := kwargs
      serializer := ser
      output := outF }

/-- Parse result of: wampproto message unregister reqID regID.  kingpin sets
the unregister command's own argument values; the registered command's
request-id argument keeps its zero default. -/
def parsedUnregister (reqID regID : Int) (ser outF : String) : Cmd :=
  { defaultCmd with
      parsedCommand := "message unregister"
      unRegRequestID := reqID
      unRegRegistrationID := regID
      serializer := ser
      output := outF }

/-! ## Message builders (the construction performed by each message branch
of Run, main.go lines 273-394) -/

/-- main.go call branch: converted options, args, kwargs; the
empty-defaulting helper; then NewCall(requestID, options, uri, args,
kwargs). -/
def callBuiltMessage (c : Cmd) : Message :=
  let p := UpdateArgsKwArgsIfEmpty (StringsToTypedList c.callArgs) (StringMapToTypedMap c.callKwargs)
  Message.call c.callRequestID (StringMapToTypedMap c.callOption) c.callURI p.1 p.2

/-- main.go result branch: NewResult(requestID, details, args, kwargs) after
the empty-defaulting helper. -/
def resultBuiltMessage (c : Cmd) : Message :=
  let p := UpdateArgsKwArgsIfEmpty (StringsToTypedList c.resultArgs) (StringMapToTypedMap c.resultKwargs)
  Message.result c.resultRequestID (StringMapToTypedMap c.resultDetails) p.1 p.2

/-- main.go register branch: NewRegister(requestID, options, procedure). -/
def registerBuiltMessage (c : Cmd) : Message :=
  Message.register c.regRequestID (StringMapToTypedMap c.regOptions) c.regProcedure

/-- main.go registered branch: NewRegistered(requestID, registrationID). -/
def registeredBuiltMessage (c : Cmd) : Message :=
  Message.registered c.registeredRequestID c.registrationID

/-- main.go invocation branch: NewInvocation(requestID, registrationID,
details, args, kwargs) after the empty-defaulting helper. -/
def invocationBuiltMessage (c : Cmd) : Message :=
  let p := UpdateArgsKwArgsIfEmpty (StringsToTypedList c.invArgs) (StringMapToTypedMap c.invKwArgs)
  Message.invocation c.invRequestID c.invRegistrationID (StringMapToTypedMap c.invDetails) p.1 p.2

/-- main.go yield branch: NewYield(requestID, options, args, kwargs) after
the empty-defaulting helper. -/
def yieldBuiltMessage (c : Cmd) : Message :=
  let p := UpdateArgsKwArgsIfEmpty (StringsToTypedList c.yieldArgs) (StringMapToTypedMap c.yieldKwArgs)
  Message.yield c.yieldRequestID (StringMapToTypedMap c.yieldOptions) p.1 p.2

/-- main.go unregister branch, line 353: the Go source passes
c.registeredRequestID — the registered command's request-id field — as the
first NewUnRegister argument, not c.unRegRequestID. -/
def unregisterBuiltMessage (c : Cmd) : Message :=
  Message.unregister c.registeredRequestID c.unRegRegistrationID

/-- main.go unregistered branch: NewUnRegistered(requestID). -/
def unregisteredBuiltMessage (c : Cmd) : Message :=
  Message.unregistered c.UnRegisteredRequestID

/-- main.go subscribe branch: NewSubscribe(requestID, options, topic). -/
def subscribeBuiltMessage (c : Cmd) : Message :=
  Message.subscribe c.subscribeRequestID (StringMapToTypedMap c.subscribeOptions) c.subscribeTopic

/-- main.go subscribed branch: NewSubscribed(requestID, subscriptionID). -/
def subscribedBuiltMessage (c : Cmd) : Message :=
  Message.subscribed c.subscribedRequestID c.subscriptionID

/-- main.go publish branch, lines 382-394: the converted options, args and
kwargs are passed straight to NewPublish(requestID, options, topic, args,
kwargs); this branch does not call UpdateArgsKwArgsIfEmpty, so the list and
map fields are always present (some), never normalized to absent. -/
def publishBuiltMessage (c : Cmd) : Message :=
  Message.publish c.publishRequestID (StringMapToTypedMap c.publishOptions) c.publishTopic
    (some (StringsToTypedList c.publishArgs)) (some (StringMapToTypedMap c.publishKwArgs))

/-! ## The Run dispatcher (main.go lines 188-399) -/

/-- Convert an Except-valued helper result into the Go pair return: ok s
becomes (s, nil), error e becomes ("", e). -/
def exceptToRet (r : Except String String) : RunResult :=
  match r with
  | Except.ok s => RunResult.ret s none
  | Except.error e => RunResult.ret "" (some e)

/-- serializeMessageAndOutput of main.go lines 401-409: serialize the message
with the selected serializer, then format the bytes in the output format. -/
def serializeMessageAndOutput (o : Oracle) (serializerName : String) (message : Message)
    (outputFormat : String) : RunResult :=
  match o.serialize serializerName message with
  | Except.error e => RunResult.ret "" (some e)
  | Except.ok serializedMessage => exceptToRet (FormatOutputBytes outputFormat serializedMessage)

/-- The generate-challenge case of Run (main.go lines 195-201). -/
def generateChallengeRun (e : Entropy) (output : String) : RunResult :=
  match e.challengeResult with
  | Except.error err => RunResult.ret "" (some err)
  | Except.ok challenge => exceptToRet (FormatOutput output challenge)

/-- The tail of the sign-challenge case: SignCryptoSignChallenge on the
(possibly expanded) key, then FormatOutput (main.go lines 217-222). -/
def signOutcome (o : Oracle) (challenge : String) (keyBytes : List Nat)
    (output : String) : RunResult :=
  match o.signChallenge challenge keyBytes with
  | Except.error err => RunResult.ret "" (some err)
  | Except.ok signedChallenge => exceptToRet (FormatOutput output signedChallenge)

/-- The sign-challenge case of Run (main.go lines 203-222): decode the key,
reject lengths other than 32 and 64, expand a 32-byte seed with
NewKeyFromSeed, then sign. -/
def signChallengeRun (o : Oracle) (challenge privateKey output : String) : RunResult :=
  match DecodeHexOrBase64 privateKey with
  | Except.error err => RunResult.ret "" (some ("invalid private-key: " ++ err))
  | Except.ok privateKeyBytes =>
    if privateKeyBytes.length ≠ 32 ∧ privateKeyBytes.length ≠ 64 then
      RunResult.ret "" (some "invalid private-key: must be of length 32 or 64")
    else
      signOutcome o challenge
        (if privateKeyBytes.length = 32 then o.newKeyFromSeed privateKeyBytes
         else privateKeyBytes)
        output

/-- The verify-signature case of Run (main.go lines 224-243): decode the
public key, reject lengths other than 32, then report the delegate's verdict:
true is the success message, false the dedicated failure error. -/
def verifySignatureRun (o : Oracle) (signature publicKey : String) : RunResult :=
  match DecodeHexOrBase64 publicKey with
  | Except.error err => RunResult.ret "" (some ("invalid public-key: " ++ err))
  | Except.ok publicKeyBytes =>
    if publicKeyBytes.length ≠ 32 then
      RunResult.ret "" (some "invalid public-key: must be of length 32")
    else
      match o.verifySignature signature publicKeyBytes with
      | Except.error err => RunResult.ret "" (some err)
      | Except.ok true => RunResult.ret "Signature verified successfully" none
      | Except.ok false => RunResult.ret "" (some "signature verification failed")

/-- The keygen case of Run (main.go lines 245-261): format both halves of the
generated pair and print them labeled on two lines. -/
def keygenRun (e : Entropy) (output : String) : RunResult :=
  match e.keyPairResult with
  | Except.error err => RunResult.ret "" (some err)
  | Except.ok (publicKey, privateKey) =>
    match FormatOutput output publicKey with
    | Except.error err => RunResult.ret "" (some err)
    | Except.ok formatedPubKey =>
      match FormatOutput output privateKey with
      | Except.error err => RunResult.ret "" (some err)
      | Except.ok formatedPriKey =>
        RunResult.ret ("Public Key: " ++ formatedPubKey ++ "\n" ++ "Private Key: " ++ formatedPriKey) none

/-- The get-pubkey case of Run (main.go lines 263-271): decode the key, then
call crypto/ed25519 NewKeyFromSeed directly — that function panics when the
seed length is not 32 (its documented behaviour), there is no length check in
this branch — and project the public half (the last 32 bytes of the expanded
key). -/
def getPubkeyRun (o : Oracle) (privateKeyFlag output : String) : RunResult :=
  match DecodeHexOrBase64 privateKeyFlag with
  | Except.error err => RunResult.ret "" (some ("invalid private-key: " ++ err))
  | Except.ok privateKeyBytes =>
    if privateKeyBytes.length ≠ 32 then RunResult.panic "ed25519: bad seed length"
    else exceptToRet (FormatOutputBytes output ((o.newKeyFromSeed privateKeyBytes).drop 32))

/-- Run of main.go lines 188-399: the switch on the parsed command name, one
case per command, in source order; a parsed command matching no case falls
through to returning ("", nil). -/
def Run (o : Oracle) (e : Entropy) (c : Cmd) : RunResult :=
  if c.parsedCommand = "auth cryptosign generate-challenge" then
    generateChallengeRun e c.output
  else if c.parsedCommand = "auth cryptosign sign-challenge" then
    signChallengeRun o c.challenge c.privateKey c.output
  else if c.parsedCommand = "auth cryptosign verify-signature" then
    verifySignatureRun o c.signature c.publicKey
  else if c.parsedCommand = "auth cryptosign keygen" then
    keygenRun e c.output
  else if c.parsedCommand = "auth cryptosign get-pubkey" then
    getPubkeyRun o c.privateKeyFlag c.output
  else if c.parsedCommand = "message call" then
    serializeMessageAndOutput o c.serializer (callBuiltMessage c) c.output
  else if c.parsedCommand = "message result" then
    serializeMessageAndOutput o c.serializer (resultBuiltMessage c) c.output
  else if c.parsedCommand = "message register" then
    serializeMessageAndOutput o c.serializer (registerBuiltMessage c) c.output
  else if c.parsedCommand = "message registered" then
    serializeMessageAndOutput o c.serializer (registeredBuiltMessage c) c.output
  else if c.parsedCommand = "message invocation" then
    serializeMessageAndOutput o c.serializer (invocationBuiltMessage c) c.output
  else if c.parsedCommand = "message yield" then
    serializeMessageAndOutput o c.serializer (yieldBuiltMessage c) c.output
  else if c.parsedCommand = "message unregister" then
    serializeMessageAndOutput o c.serializer (unregisterBuiltMessage c) c.output
  else if c.parsedCommand = "message unregistered" then
    serializeMessageAndOutput o c.serializer (unregisteredBuiltMessage c) c.output
  else if c.parsedCommand = "message subscribe" then
    serializeMessageAndOutput o c.serializer (subscribeBuiltMessage c) c.output
  else if c.parsedCommand = "message subscribed" then
    serializeMessageAndOutput o c.serializer (subscribedBuiltMessage c) c.output
  else if c.parsedCommand = "message publish" then
    serializeMessageAndOutput o c.serializer (publishBuiltMessage c) c.output
  else
    RunResult.ret "" none

/-- The full command names handled by the switch of Run. -/
def handledCommands : List String :=
  ["auth cryptosign generate-challenge", "auth cryptosign sign-challenge",
   "auth cryptosign verify-signature", "auth cryptosign keygen",
   "auth cryptosign get-pubkey", "message call", "message result",
   "message register", "message registered", "message invocation",
   "message yield", "message unregister", "message unregistered",
   "message subscribe", "message subscribed", "message publish"]

/-- The entry point's observable behaviour (main.go lines 411-418): on a nil
error, print the output line and exit 0; on an error, log.Fatalln prints the
error and exits 1; a panic aborts the process with status 2. -/
def mainResult (o : Oracle) (e : Entropy) (c : Cmd) : String × Nat :=
  match Run o e c with
  | RunResult.ret out none => (out, 0)
  | RunResult.ret _ (some err) => (err, 1)
  | RunResult.panic msg => (msg, 2)

/-- Propagation policy of spec section 7 as a predicate on a Run outcome:
whenever Run returns, it returns either (output, nil error) or (empty output,
error); a non-returning panic carries no output at all. -/
def okOrEmptyErr : RunResult → Prop
  | RunResult.ret _ none => True
  | RunResult.ret out (some _) => out = ""
  | RunResult.panic _ => True

/-! ## Concrete fixtures used by witnesses and counterexamples -/

/-- A concrete deterministic oracle standing in for the external crypto and
serializer collaborators in closed evaluations. -/
def testOracle : Oracle where
  signChallenge := fun ch k => Except.ok (ch ++ "-" ++ hexEncode k)
  verifySignature := fun sig _ => Except.ok (sig = "valid")
  newKeyFromSeed := fun s => s ++ s
  serialize := fun _ _ => Except.ok [1, 2, 3]

/-- One possible entropy draw. -/
def entropyA : Entropy where
  challengeResult := Except.ok "00"
  keyPairResult := Except.ok ("00", "01")

/-- A different possible entropy draw for the same argument vector. -/
def entropyB : Entropy where
  challengeResult := Except.ok "02"
  keyPairResult := Except.ok ("02", "03")

/-- A 32-byte all-zero seed. -/
def seed32 : List Nat := List.replicate 32 0

/-- The hex encoding of the 32-byte all-zero seed (64 zero characters). -/
def seed32hex : String := hexEncode seed32

/-- A cmd record whose parsed command name matches none of the dispatch
cases. -/
def bogusCmd : Cmd :=
  { defaultCmd with parsedCommand := "message bogus" }

/-! ## Helper lemmas -/

/-- Hex digits survive the encode-decode round trip. -/
theorem hexDigitToNat_natToHexDigit : ∀ n, n < 16 → hexDigitToNat (natToHexDigit n) = some n := by
  decide

/-- Character-level hex round trip for byte lists. -/
theorem hexDecodeChars_hexEncodeChars :
    ∀ (bs : List Nat), (∀ b ∈ bs, b < 256) → hexDecodeChars (hexEncodeChars bs) = some bs
  | [], _ => rfl
  | b :: rest, h => by
    have hb : b < 256 := h b (List.mem_cons_self b rest)
    have h1 : hexDigitToNat (natToHexDigit (b / 16)) = some (b / 16) :=
      hexDigitToNat_natToHexDigit _ (by omega)
    have h2 : hexDigitToNat (natToHexDigit (b % 16)) = some (b % 16) :=
      hexDigitToNat_natToHexDigit _ (by omega)
    have ih := hexDecodeChars_hexEncodeChars rest (fun x hx => h x (List.mem_cons_of_mem _ hx))
    simp [hexEncodeChars, hexDecodeChars, h1, h2, ih]
    omega

/-- DecodeHexOrBase64 inverts hexEncode: the hex attempt comes first and
always succeeds on a hex encoding (spec 4.2 round-trip law, hex side). -/
theorem decodeHexOrBase64_hexEncode (bs : List Nat) (h : ∀ b ∈ bs, b < 256) :
    DecodeHexOrBase64 (hexEncode bs) = Except.ok bs := by
  unfold DecodeHexOrBase64 hexDecode hexEncode
  rw [show (String.mk (hexEncodeChars bs)).data = hexEncodeChars bs from rfl]
  rw [hexDecodeChars_hexEncodeChars bs h]

/-- Dispatch: Run on a parsed sign-challenge invocation is the sign-challenge
case. -/
theorem run_parsedSignChallenge (o : Oracle) (e : Entropy) (ch key outF : String) :
    Run o e (parsedSignChallenge ch key outF) = signChallengeRun o ch key outF := rfl

/-- Dispatch: Run on a parsed verify-signature invocation is the
verify-signature case. -/
theorem run_parsedVerifySignature (o : Oracle) (e : Entropy) (sig pk outF : String) :
    Run o e (parsedVerifySignature sig pk outF) = verifySignatureRun o sig pk := rfl

/-- Dispatch: Run on a parsed get-pubkey invocation is the get-pubkey
case. -/
theorem run_parsedGetPubkey (o : Oracle) (e : Entropy) (key outF : String) :
    Run o e (parsedGetPubkey key outF) = getPubkeyRun o key outF := rfl

/-- exceptToRet never pairs a non-empty output with an error. -/
theorem okOrEmptyErr_exceptToRet (r : Except String String) : okOrEmptyErr (exceptToRet r) := by
  cases r <;> simp [exceptToRet, okOrEmptyErr]

/-- serializeMessageAndOutput never pairs a non-empty output with an
error. -/
theorem okOrEmptyErr_serializeMessageAndOutput (o : Oracle) (s : String) (m : Message)
    (outF : String) : okOrEmptyErr (serializeMessageAndOutput o s m outF) := by
  unfold serializeMessageAndOutput
  cases o.serialize s m
  · simp [okOrEmptyErr]
  · exact okOrEmptyErr_exceptToRet _

/-- The generate-challenge case never pairs a non-empty output with an
error. -/
theorem okOrEmptyErr_generateChallengeRun (e : Entropy) (outF : String) :
    okOrEmptyErr (generateChallengeRun e outF) := by
  unfold generateChallengeRun
  cases e.challengeResult
  · simp [okOrEmptyErr]
  · exact okOrEmptyErr_exceptToRet _

/-- The sign tail never pairs a non-empty output with an error. -/
theorem okOrEmptyErr_signOutcome (o : Oracle) (ch : String) (k : List Nat) (outF : String) :
    okOrEmptyErr (signOutcome o ch k outF) := by
  unfold signOutcome
  cases o.signChallenge ch k
  · simp [okOrEmptyErr]
  · exact okOrEmptyErr_exceptToRet _

/-- The sign-challenge case never pairs a non-empty output with an error. -/
theorem okOrEmptyErr_signChallengeRun (o : Oracle) (ch key outF : String) :
    okOrEmptyErr (signChallengeRun o ch key outF) := by
  unfold signChallengeRun
  cases DecodeHexOrBase64 key
  · simp [okOrEmptyErr]
  · dsimp only
    split
    · simp [okOrEmptyErr]
    · exact okOrEmptyErr_signOutcome ..

/-- The verify-signature case never pairs a non-empty output with an
error. -/
theorem okOrEmptyErr_verifySignatureRun (o : Oracle) (sig pk : String) :
    okOrEmptyErr (verifySignatureRun o sig pk) := by
  unfold verifySignatureRun
  cases DecodeHexOrBase64 pk
  · simp [okOrEmptyErr]
  · dsimp only
    split
    · simp [okOrEmptyErr]
    · rename_i bs _
      match o.verifySignature sig bs with
      | Except.error _ => simp [okOrEmptyErr]
      | Except.ok true => simp [okOrEmptyErr]
      | Except.ok false => simp [okOrEmptyErr]

/-- The keygen case never pairs a non-empty output with an error. -/
theorem okOrEmptyErr_keygenRun (e : Entropy) (outF : String) :
    okOrEmptyErr (keygenRun e outF) := by
  unfold keygenRun
  match e.keyPairResult with
  | Except.error _ => simp [okOrEmptyErr]
  | Except.ok (pub, priv) =>
    dsimp only
    cases FormatOutput outF pub
    · simp [okOrEmptyErr]
    · dsimp only
      cases FormatOutput outF priv <;> simp [okOrEmptyErr]

/-- The get-pubkey case never pairs a non-empty output with an error. -/
theorem okOrEmptyErr_getPubkeyRun (o : Oracle) (key outF : String) :
    okOrEmptyErr (getPubkeyRun o key outF) := by
  unfold getPubkeyRun
  cases DecodeHexOrBase64 key
  · simp [okOrEmptyErr]
  · dsimp only
    split
    · simp [okOrEmptyErr]
    · exact okOrEmptyErr_exceptToRet _

/-! ## Claim theorems -/

/-- C1: the code evaluated at the failing input.  Parsing
"message unregister 42 7" and running the unregister branch builds an
UnRegister message whose first constructor field is 0 — the registered
command's request-id field, left at its parse default — and not the
request-id 42 that was supplied to the unregister command, contradicting the
claim that the message is built from the unregister command's own CLI
fields. -/
theorem unregister_message_ignores_own_request_id :
    unregisterBuiltMessage (parsedUnregister 42 7 "json" "hex") = Message.unregister 0 7 ∧
    unregisterBuiltMessage (parsedUnregister 42 7 "json" "hex") ≠ Message.unregister 42 7 := by
  refine ⟨rfl, ?_⟩
  decide

/-- C2 (counterexample): for a publish invocation with no positional
arguments and no keyword arguments, the built message carries
present-but-empty argument fields (some []), although the empty-defaulting
rule normalizes such a pair to the absent representation (none, none); so the
rule is not applied before construction for the publish kind. -/
theorem publish_empty_args_not_defaulted :
    publishBuiltMessage (parsedPublish 1 "some.topic" [] [] [] "json" "hex") =
      Message.publish 1 [] "some.topic" (some []) (some []) ∧
    UpdateArgsKwArgsIfEmpty (StringsToTypedList []) (StringMapToTypedMap []) =
      (none, none) := by
  exact ⟨rfl, rfl⟩

/-- C2 (amended): the empty-defaulting rule is applied before construction
for the call, result, invocation and yield kinds; the publish branch passes
the converted argument list and argument map to the constructor as-is
(present, possibly empty) without applying the rule. -/
theorem empty_defaulting_applied_except_publish (reqID regID : Int) (uri : String)
    (args : List String) (kwargs details opts : List (String × String)) :
    (callBuiltMessage (parsedCall reqID uri args kwargs opts "json" "hex") =
       Message.call reqID (StringMapToTypedMap opts) uri
         (UpdateArgsKwArgsIfEmpty (StringsToTypedList args) (StringMapToTypedMap kwargs)).1
         (UpdateArgsKwArgsIfEmpty (StringsToTypedList args) (StringMapToTypedMap kwargs)).2) ∧
    (resultBuiltMessage (parsedResult reqID args details kwargs "json" "hex") =
       Message.result reqID (StringMapToTypedMap details)
         (UpdateArgsKwArgsIfEmpty (StringsToTypedList args) (StringMapToTypedMap kwargs)).1
         (UpdateArgsKwArgsIfEmpty (StringsToTypedList args) (StringMapToTypedMap kwargs)).2) ∧
    (invocationBuiltMessage (parsedInvocation reqID regID args details kwargs "json" "hex") =
       Message.invocation reqID regID (StringMapToTypedMap details)
         (UpdateArgsKwArgsIfEmpty (StringsToTypedList args) (StringMapToTypedMap kwargs)).1
         (UpdateArgsKwArgsIfEmpty (StringsToTypedList args) (StringMapToTypedMap kwargs)).2) ∧
    (yieldBuiltMessage (parsedYield reqID args opts kwargs "json" "hex") =
       Message.yield reqID (StringMapToTypedMap opts)
         (UpdateArgsKwArgsIfEmpty (StringsToTypedList args) (StringMapToTypedMap kwargs)).1
         (UpdateArgsKwArgsIfEmpty (StringsToTypedList args) (StringMapToTypedMap kwargs)).2) ∧
    (publishBuiltMessage (parsedPublish reqID uri args opts kwargs "json" "hex") =
       Message.publish reqID (StringMapToTypedMap opts) uri
         (some (StringsToTypedList args)) (some (StringMapToTypedMap kwargs))) :=
  ⟨rfl, rfl, rfl, rfl, rfl⟩

/-- C3 (counterexample): the token "abcd" decodes successfully (valid hex,
two bytes), yet the get-pubkey command does not complete without fault: the
unguarded NewKeyFromSeed call panics on the 2-byte key, so decode success is
not the only precondition. -/
theorem getpubkey_short_key_panics :
    DecodeHexOrBase64 "abcd" = Except.ok [171, 205] ∧
    Run testOracle entropyA (parsedGetPubkey "abcd" "hex") =
      RunResult.panic "ed25519: bad seed length" := by
  exact ⟨rfl, rfl⟩

/-- C3 (amended): for the get-pubkey command, decode success alone is not
sufficient: when the decoded key is exactly 32 bytes long, the operation
completes without fault and returns the public key derived by seed expansion
then projection, encoded in the selected output format; any other decoded
length makes the unguarded NewKeyFromSeed call fault (panic) instead of
returning. -/
theorem getpubkey_requires_seed_length (o : Oracle) (e : Entropy) (tok outF : String)
    (bs : List Nat) (hdec : DecodeHexOrBase64 tok = Except.ok bs) :
    (bs.length = 32 → (outF = "hex" ∨ outF = "base64") →
       Run o e (parsedGetPubkey tok outF) =
         RunResult.ret
           (if outF = "hex" then hexEncode ((o.newKeyFromSeed bs).drop 32)
            else base64Encode ((o.newKeyFromSeed bs).drop 32)) none) ∧
    (bs.length ≠ 32 →
       Run o e (parsedGetPubkey tok outF) = RunResult.panic "ed25519: bad seed length") := by
  rw [run_parsedGetPubkey]
  unfold getPubkeyRun
  rw [hdec]
  constructor
  · intro h32 hfmt
    have hc : ¬bs.length ≠ 32 := fun h => h h32
    rcases hfmt with hfmt | hfmt <;> subst hfmt
    · simp [hc, FormatOutputBytes, exceptToRet]
    · simp [hc, FormatOutputBytes, exceptToRet, show ("base64" : String) ≠ "hex" from by decide]
  · intro h32
    simp [h32]

/-- C3 (witness): the amended theorem applied to the all-zero 32-byte seed in
hex form. -/
theorem getpubkey_requires_seed_length_witness :
    Run testOracle entropyA (parsedGetPubkey seed32hex "hex") =
      RunResult.ret (hexEncode ((testOracle.newKeyFromSeed seed32).drop 32)) none := by
  have h := getpubkey_requires_seed_length testOracle entropyA seed32hex "hex" seed32
    (decodeHexOrBase64_hexEncode seed32 (by decide))
  simpa using h.1 (by decide) (Or.inl rfl)

/-- C4: for a sign-challenge invocation whose private key decodes
successfully, a decoded length that is neither 32 nor 64 bytes fails with
exactly the error "invalid private-key: must be of length 32 or 64" and empty
output, and a decoded length of exactly 32 bytes makes Run expand the key
with NewKeyFromSeed before handing it to the signing delegate. -/
theorem sign_challenge_key_length_validation (o : Oracle) (e : Entropy)
    (ch tok outF : String) (bs : List Nat)
    (hdec : DecodeHexOrBase64 tok = Except.ok bs) :
    (bs.length ≠ 32 → bs.length ≠ 64 →
       Run o e (parsedSignChallenge ch tok outF) =
         RunResult.ret "" (some "invalid private-key: must be of length 32 or 64")) ∧
    (bs.length = 32 →
       Run o e (parsedSignChallenge ch tok outF) =
         signOutcome o ch (o.newKeyFromSeed bs) outF) := by
  rw [run_parsedSignChallenge]
  unfold signChallengeRun
  rw [hdec]
  constructor
  · intro h32 h64
    simp [h32, h64]
  · intro h32
    have hc : ¬(bs.length ≠ 32 ∧ bs.length ≠ 64) := fun h => h.1 h32
    simp [hc, h32]

/-- C4 (witness): the theorem applied to the 2-byte hex token "abcd". -/
theorem sign_challenge_key_length_validation_witness :
    Run testOracle entropyA (parsedSignChallenge "abc123" "abcd" "hex") =
      RunResult.ret "" (some "invalid private-key: must be of length 32 or 64") :=
  (sign_challenge_key_length_validation testOracle entropyA "abc123" "abcd" "hex"
    [171, 205] rfl).1 (by decide) (by decide)

/-- C5: for a verify-signature invocation whose public key decodes
successfully to a length other than 32 bytes, Run fails with exactly the
error "invalid public-key: must be of length 32" and empty output; the
conclusion holds for every oracle, so the verification delegate is never
consulted. -/
theorem verify_signature_pubkey_length_validation (o : Oracle) (e : Entropy)
    (sig tok outF : String) (bs : List Nat)
    (hdec : DecodeHexOrBase64 tok = Except.ok bs) (hlen : bs.length ≠ 32) :
    Run o e (parsedVerifySignature sig tok outF) =
      RunResult.ret "" (some "invalid public-key: must be of length 32") := by
  rw [run_parsedVerifySignature]
  unfold verifySignatureRun
  rw [hdec]
  simp [hlen]

/-- C5 (witness): the theorem applied to the 2-byte hex token "abcd". -/
theorem verify_signature_pubkey_length_validation_witness :
    Run testOracle entropyA (parsedVerifySignature "valid" "abcd" "hex") =
      RunResult.ret "" (some "invalid public-key: must be of length 32") :=
  verify_signature_pubkey_length_validation testOracle entropyA "valid" "abcd" "hex"
    [171, 205] rfl (by decide)

/-- C6: for a verify-signature invocation with a decodable 32-byte public
key, a delegate verdict of false (with no delegate error) yields exactly the
error "signature verification failed" with empty output, which main reports
with exit status 1; a verdict of true yields the success message
"Signature verified successfully" with no error and exit status 0. -/
theorem verify_signature_verdict_reporting (o : Oracle) (e : Entropy)
    (sig tok outF : String) (bs : List Nat)
    (hdec : DecodeHexOrBase64 tok = Except.ok bs) (hlen : bs.length = 32) :
    (o.verifySignature sig bs = Except.ok false →
       Run o e (parsedVerifySignature sig tok outF) =
         RunResult.ret "" (some "signature verification failed") ∧
       mainResult o e (parsedVerifySignature sig tok outF) =
         ("signature verification failed", 1)) ∧
    (o.verifySignature sig bs = Except.ok true →
       Run o e (parsedVerifySignature sig tok outF) =
         RunResult.ret "Signature verified successfully" none ∧
       mainResult o e (parsedVerifySignature sig tok outF) =
         ("Signature verified successfully", 0)) := by
  have hc : ¬bs.length ≠ 32 := fun h => h hlen
  have hrun : Run o e (parsedVerifySignature sig tok outF) = verifySignatureRun o sig tok :=
    run_parsedVerifySignature ..
  constructor
  · intro hv
    have : Run o e (parsedVerifySignature sig tok outF) =
        RunResult.ret "" (some "signature verification failed") := by
      rw [hrun]; unfold verifySignatureRun; rw [hdec]; simp [hc, hv]
    exact ⟨this, by unfold mainResult; rw [this]⟩
  · intro hv
    have : Run o e (parsedVerifySignature sig tok outF) =
        RunResult.ret "Signature verified successfully" none := by
      rw [hrun]; unfold verifySignatureRun; rw [hdec]; simp [hc, hv]
    exact ⟨this, by unfold mainResult; rw [this]⟩

/-- C6 (witness): the theorem applied with the concrete test oracle, which
verifies the signature token "valid" and rejects every other token, and the
32-byte all-zero public key in hex form. -/
theorem verify_signature_verdict_reporting_witness :
    (Run testOracle entropyA (parsedVerifySignature "valid" seed32hex "hex") =
       RunResult.ret "Signature verified successfully" none) ∧
    (Run testOracle entropyA (parsedVerifySignature "bad" seed32hex "hex") =
       RunResult.ret "" (some "signature verification failed")) := by
  refine ⟨?_, ?_⟩
  · exact ((verify_signature_verdict_reporting testOracle entropyA "valid" seed32hex "hex" seed32
      (decodeHexOrBase64_hexEncode seed32 (by decide)) (by decide)).2 rfl).1
  · exact ((verify_signature_verdict_reporting testOracle entropyA "bad" seed32hex "hex" seed32
      (decodeHexOrBase64_hexEncode seed32 (by decide)) (by decide)).1 rfl).1

/-- C7: signing a challenge with a 32-byte seed produces the same Run outcome
as signing the same challenge with the 64-byte key obtained by expanding that
seed: the seed branch expands the key with NewKeyFromSeed before signing, so
both invocations hand the expanded key to the signing delegate. -/
theorem sign_challenge_seed_matches_expanded (o : Oracle) (e : Entropy)
    (ch outF : String) (seed : List Nat)
    (hlen : seed.length = 32) (hbytes : ∀ b ∈ seed, b < 256)
    (hexp : (o.newKeyFromSeed seed).length = 64)
    (hexpbytes : ∀ b ∈ o.newKeyFromSeed seed, b < 256) :
    Run o e (parsedSignChallenge ch (hexEncode seed) outF) =
      Run o e (parsedSignChallenge ch (hexEncode (o.newKeyFromSeed seed)) outF) := by
  rw [run_parsedSignChallenge, run_parsedSignChallenge]
  unfold signChallengeRun
  rw [decodeHexOrBase64_hexEncode seed hbytes, decodeHexOrBase64_hexEncode _ hexpbytes]
  have hc1 : ¬(seed.length ≠ 32 ∧ seed.length ≠ 64) := fun h => h.1 hlen
  have hc2 : ¬((o.newKeyFromSeed seed).length ≠ 32 ∧ (o.newKeyFromSeed seed).length ≠ 64) :=
    fun h => h.2 hexp
  have hne : (o.newKeyFromSeed seed).length ≠ 32 := by rw [hexp]; decide
  simp [hc1, hc2, hlen, hne, hexp]

/-- C7 (witness): the theorem applied to the all-zero 32-byte seed and the
concrete test oracle, whose seed expansion doubles the seed to 64 bytes. -/
theorem sign_challenge_seed_matches_expanded_witness :
    Run testOracle entropyA (parsedSignChallenge "abc123" (hexEncode seed32) "hex") =
      Run testOracle entropyA
        (parsedSignChallenge "abc123" (hexEncode (testOracle.newKeyFromSeed seed32)) "hex") :=
  sign_challenge_seed_matches_expanded testOracle entropyA "abc123" "hex" seed32
    (by decide) (by decide) (by decide) (by decide)

/-- An if-then-else of outcomes that both respect the propagation policy
respects it. -/
theorem okOrEmptyErr_ite {p : Prop} [Decidable p] {a b : RunResult}
    (ha : okOrEmptyErr a) (hb : okOrEmptyErr b) : okOrEmptyErr (if p then a else b) := by
  by_cases h : p <;> simp [h] <;> assumption

/-- C8: for every oracle, entropy draw and parsed command record, whenever
Run returns it returns either an output with no error or the empty output
with an error; no path returns a non-empty output together with an error. -/
theorem run_no_partial_output (o : Oracle) (e : Entropy) (c : Cmd) :
    okOrEmptyErr (Run o e c) := by
  unfold Run
  apply okOrEmptyErr_ite (okOrEmptyErr_generateChallengeRun ..)
  apply okOrEmptyErr_ite (okOrEmptyErr_signChallengeRun ..)
  apply okOrEmptyErr_ite (okOrEmptyErr_verifySignatureRun ..)
  apply okOrEmptyErr_ite (okOrEmptyErr_keygenRun ..)
  apply okOrEmptyErr_ite (okOrEmptyErr_getPubkeyRun ..)
  apply okOrEmptyErr_ite (okOrEmptyErr_serializeMessageAndOutput ..)
  apply okOrEmptyErr_ite (okOrEmptyErr_serializeMessageAndOutput ..)
  apply okOrEmptyErr_ite (okOrEmptyErr_serializeMessageAndOutput ..)
  apply okOrEmptyErr_ite (okOrEmptyErr_serializeMessageAndOutput ..)
  apply okOrEmptyErr_ite (okOrEmptyErr_serializeMessageAndOutput ..)
  apply okOrEmptyErr_ite (okOrEmptyErr_serializeMessageAndOutput ..)
  apply okOrEmptyErr_ite (okOrEmptyErr_serializeMessageAndOutput ..)
  apply okOrEmptyErr_ite (okOrEmptyErr_serializeMessageAndOutput ..)
  apply okOrEmptyErr_ite (okOrEmptyErr_serializeMessageAndOutput ..)
  apply okOrEmptyErr_ite (okOrEmptyErr_serializeMessageAndOutput ..)
  apply okOrEmptyErr_ite (okOrEmptyErr_serializeMessageAndOutput ..)
  simp [okOrEmptyErr]

/-- C9 (counterexample): two invocations of the keygen command with the same
argument vector but different per-invocation entropy draws produce different
outputs, so the keygen command is not a deterministic function of its
input. -/
theorem keygen_not_deterministic :
    Run testOracle entropyA (parsedKeygen "hex") ≠
      Run testOracle entropyB (parsedKeygen "hex") := by
  decide

/-- C9 (amended): every command other than generate-challenge and keygen is
deterministic given its argument vector: its Run outcome does not depend on
the per-invocation entropy draw; generate-challenge and keygen draw fresh
randomness on each invocation. -/
theorem run_deterministic_outside_random_commands (o : Oracle) (e1 e2 : Entropy) (c : Cmd)
    (h1 : c.parsedCommand ≠ "auth cryptosign generate-challenge")
    (h2 : c.parsedCommand ≠ "auth cryptosign keygen") :
    Run o e1 c = Run o e2 c := by
  unfold Run
  rw [if_neg h1, if_neg h1, if_neg h2, if_neg h2]

/-- C9 (witness): the amended theorem applied to a verify-signature
invocation and two different entropy draws. -/
theorem run_deterministic_outside_random_commands_witness :
    Run testOracle entropyA (parsedVerifySignature "valid" "abcd" "hex") =
      Run testOracle entropyB (parsedVerifySignature "valid" "abcd" "hex") :=
  run_deterministic_outside_random_commands testOracle entropyA entropyB
    (parsedVerifySignature "valid" "abcd" "hex") (by decide) (by decide)

/-- C10: when the parsed command name matches none of the dispatch cases, Run
falls through the switch and returns the empty string with no error, so main
prints an empty line and exits with status zero instead of reporting an
unknown-command error. -/
theorem unknown_command_empty_success (o : Oracle) (e : Entropy) (c : Cmd)
    (h : c.parsedCommand ∉ handledCommands) :
    Run o e c = RunResult.ret "" none ∧ mainResult o e c = ("", 0) := by
  simp only [handledCommands, List.mem_cons, List.not_mem_nil, or_false, not_or] at h
  obtain ⟨h1, h2, h3, h4, h5, h6, h7, h8, h9, h10, h11, h12, h13, h14, h15, h16⟩ := h
  have hR : Run o e c = RunResult.ret "" none := by
    unfold Run
    rw [if_neg h1, if_neg h2, if_neg h3, if_neg h4, if_neg h5, if_neg h6, if_neg h7,
      if_neg h8, if_neg h9, if_neg h10, if_neg h11, if_neg h12, if_neg h13, if_neg h14,
      if_neg h15, if_neg h16]
  exact ⟨hR, by unfold mainResult; rw [hR]⟩

/-- C10 (witness): the theorem applied to a record whose parsed command name
is "message bogus". -/
theorem unknown_command_empty_success_witness :
    Run testOracle entropyA bogusCmd = RunResult.ret "" none ∧
    mainResult testOracle entropyA bogusCmd = ("", 0) :=
  unknown_command_empty_success testOracle entropyA bogusCmd (by decide)
